import Mathlib

/-!
Verification of the task-manager web application (`src/app.py`).

The application is a Flask CRUD service over two SQL tables, `users` and
`tasks`.  We embed it shallowly: the database is an explicit `AppState`
(a list of user rows, a list of task rows, and the auto-increment
counters), and every API handler of `app.py` becomes a pure Lean
function from the state and the request data to the new state and the
JSON response.

Modelling conventions, each justified by the corresponding source line:
* `request.get_json()` fields accessed with `data.get(k, '')` are
  `Option String` arguments; `.getD ""` is Python's default.
* Python's `str.strip()` is `pyStrip`: it removes leading and trailing
  whitespace characters from the string, written structurally on the
  character list so that it evaluates on concrete inputs.
* `session['user_id']` is an `Option Nat` argument (`none` = no session).
* `generate_password_hash` / `check_password_hash` are opaque library
  functions; handlers take them as function parameters.
* `db.session.commit()` can raise; every handler wraps the persistence
  step in `try/except` and calls `db.session.rollback()` on failure,
  returning a 500 response.  We model the outcome of the commit as a
  boolean parameter `commitOk`: on `false` the handler returns the
  *unchanged* prior state (the rollback) together with the 500 response.
* `Task.query.get(task_id)` (primary-key lookup) is `find?` by id;
  `User.query.filter_by(...).first()` is `find?` by the given column.
* `order_by(Task.created_at.desc())` is a stable sort by `created_at`
  descending (`List.insertionSort` with the relation `taskLe`).
* Timestamps (`datetime.now(timezone.utc)` column defaults) are `Nat`
  values supplied by the caller at creation time.
-/

namespace TaskManager

/-- Python's `str.strip()`: remove leading and trailing whitespace.
Defined by structural recursion on the character list (unlike
`String.trim`, whose auxiliaries use well-founded recursion), so that it
reduces on concrete strings. -/
def pyStrip (s : String) : String :=
  ⟨((s.data.dropWhile Char.isWhitespace).reverse.dropWhile Char.isWhitespace).reverse⟩

/-- A row of the `users` table (model `User`, app.py lines 49-58). -/
structure User where
  id : Nat
  username : String
  email : String
  password_hash : String
  created_at : Nat
deriving Repr, DecidableEq

/-- A row of the `tasks` table (model `Task`, app.py lines 61-69). -/
structure Task where
  id : Nat
  title : String
  content : String
  done : Bool
  created_at : Nat
  user_id : Nat
deriving Repr, DecidableEq

/-- The database state plus the auto-increment id counters. -/
structure AppState where
  users : List User
  tasks : List Task
  nextUserId : Nat
  nextTaskId : Nat
deriving Repr, DecidableEq

/-- A JSON response envelope: the HTTP status code, the `success`
field, and the `message` field (`none` when the handler's `jsonify`
call has no `message` key). -/
structure ApiResponse where
  status : Nat
  success : Bool
  message : Option String
deriving Repr, DecidableEq

/-- `User.query.filter_by(username=username).first()` (app.py 117, 145). -/
def userByUsername (s : AppState) (username : String) : Option User :=
  s.users.find? (fun u => u.username == username)

/-- `User.query.filter_by(email=email).first()` (app.py 120). -/
def userByEmail (s : AppState) (email : String) : Option User :=
  s.users.find? (fun u => u.email == email)

/-- `Task.query.get(task_id)` — primary-key lookup (app.py 234, 263, 284). -/
def taskById (s : AppState) (task_id : Nat) : Option Task :=
  s.tasks.find? (fun t => t.id == task_id)

/-- `POST /api/register` (app.py 104-136). -/
def api_register (hash : String → String) (s : AppState)
    (username0 email0 password0 : Option String) (now : Nat)
    (commitOk : Bool) : AppState × ApiResponse :=
  let username := pyStrip (username0.getD "")
  let email := pyStrip (email0.getD "")
  let password := password0.getD ""
  if username = "" ∨ email = "" ∨ password = "" then
    (s, ⟨400, false, some "All fields are required."⟩)
  else if password.length < 6 then
    (s, ⟨400, false, some "Password must be at least 6 characters."⟩)
  else match userByUsername s username with
  | some _ => (s, ⟨409, false, some "Username already taken."⟩)
  | none =>
    match userByEmail s email with
    | some _ => (s, ⟨409, false, some "Email already registered."⟩)
    | none =>
      if commitOk then
        ({ s with
            users := s.users ++ [⟨s.nextUserId, username, email, hash password, now⟩],
            nextUserId := s.nextUserId + 1 },
         ⟨201, true, some "Registration successful!"⟩)
      else (s, ⟨500, false, some "Server error."⟩)

/-- The result of `POST /api/login`: the JSON envelope, the session
contents (`user_id`, `username`) and the `user` payload
(`id`, `username`, `email`). -/
structure LoginResult where
  resp : ApiResponse
  session : Option (Nat × String)
  user : Option (Nat × String × String)
deriving Repr, DecidableEq

/-- `POST /api/login` (app.py 139-161). -/
def api_login (checkHash : String → String → Bool) (s : AppState)
    (username0 password0 : Option String) : LoginResult :=
  let username := pyStrip (username0.getD "")
  let password := password0.getD ""
  match userByUsername s username with
  | some u =>
    if checkHash u.password_hash password then
      ⟨⟨200, true, some ("Welcome back, " ++ u.username ++ "!")⟩,
       some (u.id, u.username), some (u.id, u.username, u.email)⟩
    else ⟨⟨401, false, some "Invalid username or password."⟩, none, none⟩
  | none => ⟨⟨401, false, some "Invalid username or password."⟩, none, none⟩

/-- Ordering used by `order_by(Task.created_at.desc())`: `a` may come
before `b` when `a.created_at ≥ b.created_at`. -/
def taskLe (a b : Task) : Prop := b.created_at ≤ a.created_at

instance : DecidableRel taskLe := fun a b => Nat.decLe b.created_at a.created_at

instance : IsTotal Task taskLe :=
  ⟨fun a b => (Nat.le_total b.created_at a.created_at).imp id id⟩

instance : IsTrans Task taskLe :=
  ⟨fun _ _ _ hab hbc => Nat.le_trans hbc hab⟩

/-- `Task.query.filter_by(user_id=...).order_by(Task.created_at.desc()).all()`
(app.py 189). -/
def listTasks (s : AppState) (uid : Nat) : List Task :=
  List.insertionSort taskLe (s.tasks.filter (fun t => t.user_id == uid))

/-- `GET /api/tasks` (app.py 184-202): the response envelope and the
serialized task rows, newest first. -/
def api_get_tasks (s : AppState) (sess : Option Nat) : ApiResponse × List Task :=
  match sess with
  | none => (⟨401, false, some "Not logged in."⟩, [])
  | some uid => (⟨200, true, none⟩, listTasks s uid)

/-- `POST /api/tasks` (app.py 205-226). -/
def api_create_task (s : AppState) (sess : Option Nat)
    (title0 content0 : Option String) (now : Nat)
    (commitOk : Bool) : AppState × ApiResponse :=
  match sess with
  | none => (s, ⟨401, false, some "Not logged in."⟩)
  | some uid =>
    let title := pyStrip (title0.getD "")
    let content := pyStrip (content0.getD "")
    if title = "" then
      (s, ⟨400, false, some "Task title cannot be empty."⟩)
    else if commitOk then
      ({ s with
          tasks := s.tasks ++ [⟨s.nextTaskId, title, content, false, now, uid⟩],
          nextTaskId := s.nextTaskId + 1 },
       ⟨201, true, some "Task created!"⟩)
    else (s, ⟨500, false, some "Server error."⟩)

/-- The row assignment `task.title = new_title; task.content = new_content`
(app.py 247-248), applied to the row whose primary key is `task_id`. -/
def updateRow (task_id : Nat) (new_title new_content : String) (t : Task) : Task :=
  if t.id == task_id then { t with title := new_title, content := new_content } else t

/-- The row assignment `task.done = not task.done` (app.py 290), applied to
the row whose primary key is `task_id`. -/
def toggleRow (task_id : Nat) (t : Task) : Task :=
  if t.id == task_id then { t with done := !t.done } else t

/-- `PUT /api/tasks/<task_id>` (app.py 229-255). -/
def api_update_task (s : AppState) (sess : Option Nat) (task_id : Nat)
    (title0 content0 : Option String)
    (commitOk : Bool) : AppState × ApiResponse :=
  match sess with
  | none => (s, ⟨401, false, some "Not logged in."⟩)
  | some uid =>
    match taskById s task_id with
    | none => (s, ⟨404, false, some "Task not found."⟩)
    | some task =>
      if task.user_id ≠ uid then (s, ⟨404, false, some "Task not found."⟩)
      else
        let new_title := pyStrip (title0.getD "")
        let new_content := pyStrip (content0.getD "")
        if new_title = "" then
          (s, ⟨400, false, some "Task title cannot be empty."⟩)
        else if commitOk then
          ({ s with tasks := s.tasks.map (updateRow task_id new_title new_content) },
           ⟨200, true, some "Task updated!"⟩)
        else (s, ⟨500, false, some "Server error."⟩)

/-- `DELETE /api/tasks/<task_id>` (app.py 258-276). -/
def api_delete_task (s : AppState) (sess : Option Nat) (task_id : Nat)
    (commitOk : Bool) : AppState × ApiResponse :=
  match sess with
  | none => (s, ⟨401, false, some "Not logged in."⟩)
  | some uid =>
    match taskById s task_id with
    | none => (s, ⟨404, false, some "Task not found."⟩)
    | some task =>
      if task.user_id ≠ uid then (s, ⟨404, false, some "Task not found."⟩)
      else if commitOk then
        ({ s with tasks := s.tasks.filter (fun t => !(t.id == task_id)) },
         ⟨200, true, some "Task deleted."⟩)
      else (s, ⟨500, false, some "Server error."⟩)

/-- `PUT /api/tasks/<task_id>/toggle` (app.py 279-298). -/
def api_toggle_task (s : AppState) (sess : Option Nat) (task_id : Nat)
    (commitOk : Bool) : AppState × ApiResponse :=
  match sess with
  | none => (s, ⟨401, false, some "Not logged in."⟩)
  | some uid =>
    match taskById s task_id with
    | none => (s, ⟨404, false, some "Task not found."⟩)
    | some task =>
      if task.user_id ≠ uid then (s, ⟨404, false, some "Task not found."⟩)
      else if commitOk then
        ({ s with tasks := s.tasks.map (toggleRow task_id) },
         ⟨200, true,
          some ("Task marked as " ++ (if !task.done then "done" else "not done") ++ ".")⟩)
      else (s, ⟨500, false, some "Server error."⟩)

/-- The state reached from `s` after the owner `uid` creates first task X
(title `tX`, content `cX`, timestamp `t1`) and then task Y (title `tY`,
content `cY`, timestamp `t2`), both commits succeeding. -/
def afterCreateTwo (s : AppState) (uid : Nat) (tX cX tY cY : Option String)
    (t1 t2 : Nat) : AppState :=
  (api_create_task (api_create_task s (some uid) tX cX t1 true).1
    (some uid) tY cY t2 true).1

/-- A concrete user row, used to instantiate the theorems below. -/
def user1 : User := ⟨1, "alice", "a@x.com", "H1", 0⟩

/-- A second concrete user row. -/
def user2 : User := ⟨2, "bob", "b@x.com", "H2", 0⟩

/-- A concrete task row owned by `user1`. -/
def task1 : Task := ⟨1, "buy milk", "", false, 10, 1⟩

/-- A concrete database state with two users and one task. -/
def demoState : AppState := ⟨[user1, user2], [task1], 3, 2⟩

/-!  ## Helper lemmas  -/

theorem find?_id_of_map (g : Task → Task) (hg : ∀ x, (g x).id = x.id)
    (l : List Task) (tid : Nat) :
    (l.map g).find? (fun x => x.id == tid) =
      Option.map g (l.find? (fun x => x.id == tid)) := by
  induction l with
  | nil => rfl
  | cons x xs ih =>
    by_cases h : (x.id == tid) = true
    · have h2 : ((fun y : Task => y.id == tid) (g x)) = true := by
        show ((g x).id == tid) = true
        rw [hg x]; exact h
      rw [List.map_cons,
        @List.find?_cons_of_pos Task (fun y => y.id == tid) (g x) (List.map g xs) h2,
        @List.find?_cons_of_pos Task (fun y => y.id == tid) x xs h, Option.map_some']
    · have h2 : ¬ (((fun y : Task => y.id == tid) (g x)) = true) := by
        show ¬ (((g x).id == tid) = true)
        rw [hg x]; exact h
      rw [List.map_cons,
        @List.find?_cons_of_neg Task (fun y => y.id == tid) (g x) (List.map g xs) h2,
        @List.find?_cons_of_neg Task (fun y => y.id == tid) x xs h, ih]

theorem updateRow_id (task_id : Nat) (a b : String) (t : Task) :
    (updateRow task_id a b t).id = t.id := by
  unfold updateRow; by_cases h : t.id == task_id <;> simp [h]

theorem toggleRow_id (task_id : Nat) (t : Task) :
    (toggleRow task_id t).id = t.id := by
  unfold toggleRow; by_cases h : t.id == task_id <;> simp [h]

theorem toggleRow_user_id (task_id : Nat) (t : Task) :
    (toggleRow task_id t).user_id = t.user_id := by
  unfold toggleRow; by_cases h : t.id == task_id <;> simp [h]

theorem toggleRow_toggleRow (task_id : Nat) (t : Task) :
    toggleRow task_id (toggleRow task_id t) = t := by
  unfold toggleRow
  by_cases h : t.id == task_id <;> simp [h]

/-!  ## Claims  -/

/-- Claim C1: for an authenticated caller, whenever no task with the given
id exists, or the task exists but belongs to a different user, the update,
toggle and delete handlers all return the exact same 404 response
(`"Task not found."`), with no distinction between the two cases, and the
stored state is unchanged. -/
theorem foreign_or_missing_task_is_notFound (s : AppState) (uid task_id : Nat)
    (title0 content0 : Option String) (c1 c2 c3 : Bool)
    (h : ∀ t ∈ s.tasks, t.id = task_id → t.user_id ≠ uid) :
    api_update_task s (some uid) task_id title0 content0 c1
        = (s, ⟨404, false, some "Task not found."⟩) ∧
    api_toggle_task s (some uid) task_id c2
        = (s, ⟨404, false, some "Task not found."⟩) ∧
    api_delete_task s (some uid) task_id c3
        = (s, ⟨404, false, some "Task not found."⟩) := by
  cases htb : taskById s task_id with
  | none =>
    refine ⟨?_, ?_, ?_⟩ <;>
      simp [api_update_task, api_toggle_task, api_delete_task, htb]
  | some t =>
    have hmem : t ∈ s.tasks := List.mem_of_find?_eq_some htb
    have hid : t.id = task_id := by simpa using List.find?_some htb
    have hne : t.user_id ≠ uid := h t hmem hid
    refine ⟨?_, ?_, ?_⟩ <;>
      simp [api_update_task, api_toggle_task, api_delete_task, htb, hne]

/-- Witness for C1 at a concrete state: user 2 (bob) acts on task 1, which
is owned by user 1 (alice); all three handlers answer the uniform 404. -/
theorem foreign_or_missing_task_is_notFound_witness :
    api_update_task demoState (some 2) 1 (some "t") none true
        = (demoState, ⟨404, false, some "Task not found."⟩) ∧
    api_toggle_task demoState (some 2) 1 true
        = (demoState, ⟨404, false, some "Task not found."⟩) ∧
    api_delete_task demoState (some 2) 1 true
        = (demoState, ⟨404, false, some "Task not found."⟩) :=
  foreign_or_missing_task_is_notFound demoState 2 1 (some "t") none true true true
    (by decide)

/-- Claim C5: updating an owned task with a title that trims to the empty
string is rejected with the 400 validation response, and the stored state
(in particular the task's title and content) is unchanged. -/
theorem update_empty_title_rejected (s : AppState) (uid task_id : Nat) (t : Task)
    (title0 content0 : Option String) (c : Bool)
    (ht : taskById s task_id = some t) (hown : t.user_id = uid)
    (hempty : pyStrip (title0.getD "") = "") :
    api_update_task s (some uid) task_id title0 content0 c
      = (s, ⟨400, false, some "Task title cannot be empty."⟩) := by
  simp [api_update_task, ht, hown, hempty]

/-- Witness for C5: alice updates her own task 1 with a whitespace-only
title; the state is unchanged and the response is the 400 error. -/
theorem update_empty_title_rejected_witness :
    api_update_task demoState (some 1) 1 (some "   ") (some "c") true
      = (demoState, ⟨400, false, some "Task title cannot be empty."⟩) :=
  update_empty_title_rejected demoState 1 1 task1 (some "   ") (some "c") true
    (by decide) (by decide) (by decide)

/-- Claim C7: task creation trims whitespace from both title and content,
rejects a title that is empty after trimming without changing the state,
and on a successful commit appends a task whose `done` flag is `false` and
whose `user_id` is the authenticated caller's id. -/
theorem create_task_spec (s : AppState) (uid : Nat)
    (title0 content0 : Option String) (now : Nat) (c : Bool) :
    (pyStrip (title0.getD "") = "" →
      api_create_task s (some uid) title0 content0 now c
        = (s, ⟨400, false, some "Task title cannot be empty."⟩)) ∧
    (pyStrip (title0.getD "") ≠ "" → c = true →
      api_create_task s (some uid) title0 content0 now c
        = ({ s with
              tasks := s.tasks ++
                [⟨s.nextTaskId, pyStrip (title0.getD ""), pyStrip (content0.getD ""),
                  false, now, uid⟩],
              nextTaskId := s.nextTaskId + 1 },
           ⟨201, true, some "Task created!"⟩)) := by
  constructor
  · intro h
    simp [api_create_task, h]
  · intro h hc
    subst hc
    simp [api_create_task, h]

/-- Witness for C7: creating `"  buy milk  "` with content `" soon "` for
alice trims both fields, stores `done = false` and owner 1. -/
theorem create_task_spec_witness :
    (pyStrip (((some "  buy milk  ") : Option String).getD "") ≠ "") ∧
    api_create_task demoState (some 1) (some "  buy milk  ") (some " soon ") 42 true
      = ({ demoState with
            tasks := demoState.tasks ++ [⟨2, "buy milk", "soon", false, 42, 1⟩],
            nextTaskId := 3 },
         ⟨201, true, some "Task created!"⟩) := by
  refine ⟨by decide, ?_⟩
  have h := (create_task_spec demoState 1 (some "  buy milk  ") (some " soon ") 42 true).2
    (by decide) rfl
  simpa [demoState] using h

/-- Claim C6: a login attempt whose username matches no stored user and a
login attempt with an existing username but a failing password check
produce identical results — the same 401 status and the same
`"Invalid username or password."` message — so the response does not
reveal whether the account exists. -/
theorem login_failure_uniform (checkHash : String → String → Bool) (s : AppState)
    (u1 p1 u2 p2 : Option String) (u : User)
    (h1 : userByUsername s (pyStrip (u1.getD "")) = none)
    (h2 : userByUsername s (pyStrip (u2.getD "")) = some u)
    (h3 : checkHash u.password_hash (p2.getD "") = false) :
    api_login checkHash s u1 p1 = api_login checkHash s u2 p2 ∧
    api_login checkHash s u1 p1
      = ⟨⟨401, false, some "Invalid username or password."⟩, none, none⟩ := by
  have e1 : api_login checkHash s u1 p1
      = ⟨⟨401, false, some "Invalid username or password."⟩, none, none⟩ := by
    simp [api_login, h1]
  have e2 : api_login checkHash s u2 p2
      = ⟨⟨401, false, some "Invalid username or password."⟩, none, none⟩ := by
    simp [api_login, h2, h3]
  exact ⟨e1.trans e2.symm, e1⟩

/-- Witness for C6: logging in as the unknown user `"carol"` and logging
in as `"alice"` with a wrong password give the same uniform failure. -/
theorem login_failure_uniform_witness :
    api_login (fun stored given => stored == given) demoState (some "carol") (some "x")
      = api_login (fun stored given => stored == given) demoState (some "alice") (some "wrong") ∧
    api_login (fun stored given => stored == given) demoState (some "carol") (some "x")
      = ⟨⟨401, false, some "Invalid username or password."⟩, none, none⟩ :=
  login_failure_uniform (fun stored given => stored == given) demoState
    (some "carol") (some "x") (some "alice") (some "wrong") user1
    (by decide) (by decide) (by decide)

/-- Claim C8: every mutating handler (register, create, update, toggle,
delete) is atomic: when the persistence step fails (`commitOk = false`)
after all validation and ownership checks have passed, the handler rolls
back, returns the prior state unchanged, and answers with the generic
500 `"Server error."` response. -/
theorem mutating_ops_rollback_on_failure (hash : String → String) (s : AppState)
    (username0 email0 password0 title0 content0 : Option String)
    (uid task_id now : Nat) (t : Task)
    (hu : pyStrip (username0.getD "") ≠ "")
    (he : pyStrip (email0.getD "") ≠ "")
    (hp0 : password0.getD "" ≠ "")
    (hp : ¬ (password0.getD "").length < 6)
    (hnu : userByUsername s (pyStrip (username0.getD "")) = none)
    (hne : userByEmail s (pyStrip (email0.getD "")) = none)
    (htitle : pyStrip (title0.getD "") ≠ "")
    (ht : taskById s task_id = some t) (hown : t.user_id = uid) :
    api_register hash s username0 email0 password0 now false
      = (s, ⟨500, false, some "Server error."⟩) ∧
    api_create_task s (some uid) title0 content0 now false
      = (s, ⟨500, false, some "Server error."⟩) ∧
    api_update_task s (some uid) task_id title0 content0 false
      = (s, ⟨500, false, some "Server error."⟩) ∧
    api_toggle_task s (some uid) task_id false
      = (s, ⟨500, false, some "Server error."⟩) ∧
    api_delete_task s (some uid) task_id false
      = (s, ⟨500, false, some "Server error."⟩) := by
  refine ⟨?_, ?_, ?_, ?_, ?_⟩
  · simp [api_register, hu, he, hp0, hp, hnu, hne]
  · simp [api_create_task, htitle]
  · simp [api_update_task, ht, hown, htitle]
  · simp [api_toggle_task, ht, hown]
  · simp [api_delete_task, ht, hown]

/-- Witness for C8: with a failing commit, registering `"carol"` and
creating, updating, toggling or deleting alice's task 1 all leave the
demo state untouched and answer 500. -/
theorem mutating_ops_rollback_on_failure_witness :
    api_register (fun p => p) demoState (some "carol") (some "c@x.com") (some "secret1") 7 false
      = (demoState, ⟨500, false, some "Server error."⟩) ∧
    api_create_task demoState (some 1) (some "new") none 7 false
      = (demoState, ⟨500, false, some "Server error."⟩) ∧
    api_update_task demoState (some 1) 1 (some "new") none false
      = (demoState, ⟨500, false, some "Server error."⟩) ∧
    api_toggle_task demoState (some 1) 1 false
      = (demoState, ⟨500, false, some "Server error."⟩) ∧
    api_delete_task demoState (some 1) 1 false
      = (demoState, ⟨500, false, some "Server error."⟩) :=
  mutating_ops_rollback_on_failure (fun p => p) demoState
    (some "carol") (some "c@x.com") (some "secret1") (some "new") none 1 1 7 task1
    (by decide) (by decide) (by decide) (by decide) (by decide) (by decide)
    (by decide) (by decide) (by decide)

/-- Claim C4: for a task owned by the caller, toggling it twice in a row
(with both commits succeeding) restores the state exactly, so the task's
completion flag is back to its original value. -/
theorem toggle_twice_restores (s : AppState) (uid task_id : Nat) (t : Task)
    (ht : taskById s task_id = some t) (hown : t.user_id = uid) :
    (api_toggle_task
        (api_toggle_task s (some uid) task_id true).1 (some uid) task_id true).1 = s := by
  have h1 : (api_toggle_task s (some uid) task_id true).1
      = { s with tasks := s.tasks.map (toggleRow task_id) } := by
    simp [api_toggle_task, ht, hown]
  rw [h1]
  have ht2 : taskById { s with tasks := s.tasks.map (toggleRow task_id) } task_id
      = some (toggleRow task_id t) := by
    show (s.tasks.map (toggleRow task_id)).find? (fun x => x.id == task_id)
        = some (toggleRow task_id t)
    rw [find?_id_of_map (toggleRow task_id) (toggleRow_id task_id) s.tasks task_id]
    show Option.map (toggleRow task_id) (taskById s task_id) = some (toggleRow task_id t)
    rw [ht, Option.map_some']
  have hown2 : (toggleRow task_id t).user_id = uid := by
    rw [toggleRow_user_id]; exact hown
  have h2 : (api_toggle_task { s with tasks := s.tasks.map (toggleRow task_id) }
        (some uid) task_id true).1
      = { s with tasks := (s.tasks.map (toggleRow task_id)).map (toggleRow task_id) } := by
    simp [api_toggle_task, ht2, hown2]
  rw [h2, List.map_map]
  have hcomp : toggleRow task_id ∘ toggleRow task_id = id :=
    funext (toggleRow_toggleRow task_id)
  rw [hcomp, List.map_id]

/-- Witness for C4: toggling alice's task 1 twice gives back the demo
state unchanged. -/
theorem toggle_twice_restores_witness :
    (api_toggle_task
        (api_toggle_task demoState (some 1) 1 true).1 (some 1) 1 true).1 = demoState :=
  toggle_twice_restores demoState 1 1 task1 (by decide) (by decide)

/-- Claim C10: a successful update of an owned task stores the trimmed
supplied content, and when the request body has no `content` field the
stored content becomes the empty string — an update that supplies only a
title erases the existing content. -/
theorem update_sets_trimmed_content (s : AppState) (uid task_id : Nat) (t : Task)
    (title0 content0 : Option String)
    (ht : taskById s task_id = some t) (hown : t.user_id = uid)
    (htitle : pyStrip (title0.getD "") ≠ "") :
    taskById (api_update_task s (some uid) task_id title0 content0 true).1 task_id
      = some { t with title := pyStrip (title0.getD ""),
                      content := pyStrip (content0.getD "") } ∧
    taskById (api_update_task s (some uid) task_id title0 none true).1 task_id
      = some { t with title := pyStrip (title0.getD ""), content := "" } := by
  have ht' : s.tasks.find? (fun x => x.id == task_id) = some t := ht
  have hid : t.id = task_id := by simpa using List.find?_some ht'
  have step : ∀ c0 : Option String,
      taskById (api_update_task s (some uid) task_id title0 c0 true).1 task_id
        = some { t with title := pyStrip (title0.getD ""),
                        content := pyStrip (c0.getD "") } := by
    intro c0
    have h1 : (api_update_task s (some uid) task_id title0 c0 true).1
        = { s with tasks := List.map (updateRow task_id (pyStrip (title0.getD "")) (pyStrip (c0.getD ""))) s.tasks } := by
      simp [api_update_task, ht, hown, htitle]
    rw [h1]
    show (List.map (updateRow task_id (pyStrip (title0.getD "")) (pyStrip (c0.getD ""))) s.tasks).find? (fun x => x.id == task_id) = some { t with title := pyStrip (title0.getD ""), content := pyStrip (c0.getD "") }
    rw [find?_id_of_map _ (updateRow_id task_id _ _) s.tasks task_id]
    show Option.map (updateRow task_id (pyStrip (title0.getD "")) (pyStrip (c0.getD ""))) (taskById s task_id) = some { t with title := pyStrip (title0.getD ""), content := pyStrip (c0.getD "") }
    rw [ht, Option.map_some']
    simp [updateRow, hid]
  have hps : pyStrip (Option.getD (none : Option String) "") = "" := rfl
  exact ⟨step content0, by simpa [hps] using step none⟩

/-- Witness for C10: alice updates her task 1 with title `" new "` and no
content field; the stored row has the trimmed title and empty content. -/
theorem update_sets_trimmed_content_witness :
    taskById (api_update_task demoState (some 1) 1 (some " new ") (some " c ") true).1 1
      = some { task1 with title := "new", content := "c" } ∧
    taskById (api_update_task demoState (some 1) 1 (some " new ") none true).1 1
      = some { task1 with title := "new", content := "" } := by
  have h := update_sets_trimmed_content demoState 1 1 task1 (some " new ") (some " c ")
    (by decide) (by decide) (by decide)
  exact ⟨h.1.trans (by decide), h.2.trans (by decide)⟩

/-- Claim C9 — counterexample: the claim says a user is considered only
when their stored username equals, character for character, the string
the caller supplied.  The handler strips the supplied string first
(app.py 142), so supplying `" alice "` logs in the stored user
`"alice"`, whose username differs from the supplied string. -/
theorem login_considers_user_despite_raw_mismatch :
    (api_login (fun stored given => stored == given) demoState
        (some " alice ") (some "H1")).resp.status = 200 ∧
    (api_login (fun stored given => stored == given) demoState
        (some " alice ") (some "H1")).user = some (1, "alice", "a@x.com") ∧
    user1.username ≠ " alice " := by
  refine ⟨by decide, by decide, by decide⟩

/-- Claim C9 (amended): the login lookup is an exact match against the
*trimmed* supplied username: a user is considered only if their stored
username is character-for-character equal to the supplied string after
stripping leading and trailing whitespace. -/
theorem login_lookup_matches_trimmed_username (s : AppState)
    (username0 : Option String) (u : User)
    (h : userByUsername s (pyStrip (username0.getD "")) = some u) :
    u.username = pyStrip (username0.getD "") := by
  have h' : s.users.find? (fun v => v.username == pyStrip (username0.getD ""))
      = some u := h
  have hb := List.find?_some h'
  simpa using hb

/-- Witness for C9 (amended): looking up the supplied string `" alice "`
considers exactly the stored user whose username is the trimmed string
`"alice"`. -/
theorem login_lookup_matches_trimmed_username_witness :
    userByUsername demoState (pyStrip (((some " alice ") : Option String).getD ""))
        = some user1 ∧
    user1.username = pyStrip (((some " alice ") : Option String).getD "") :=
  ⟨by decide,
   login_lookup_matches_trimmed_username demoState (some " alice ") user1 (by decide)⟩

/-- Claim C3: registration rejects with 400 any request with an empty
username, email or password, and any password shorter than 6 characters;
past those checks, a taken username is reported as a 409 conflict
regardless of the email, and only when the username is free is a taken
email reported as a 409 conflict. -/
theorem register_validation_and_conflicts (hash : String → String) (s : AppState)
    (username0 email0 password0 : Option String) (now : Nat) (c : Bool) :
    ((username0.getD "" = "" ∨ email0.getD "" = "" ∨ password0.getD "" = "") →
      api_register hash s username0 email0 password0 now c
        = (s, ⟨400, false, some "All fields are required."⟩)) ∧
    ((password0.getD "").length < 6 →
      (api_register hash s username0 email0 password0 now c).2.status = 400 ∧
      (api_register hash s username0 email0 password0 now c).2.success = false ∧
      (api_register hash s username0 email0 password0 now c).1 = s) ∧
    (pyStrip (username0.getD "") ≠ "" → pyStrip (email0.getD "") ≠ "" →
      password0.getD "" ≠ "" → ¬ (password0.getD "").length < 6 →
      ∀ w, userByUsername s (pyStrip (username0.getD "")) = some w →
        api_register hash s username0 email0 password0 now c
          = (s, ⟨409, false, some "Username already taken."⟩)) ∧
    (pyStrip (username0.getD "") ≠ "" → pyStrip (email0.getD "") ≠ "" →
      password0.getD "" ≠ "" → ¬ (password0.getD "").length < 6 →
      userByUsername s (pyStrip (username0.getD "")) = none →
      ∀ w, userByEmail s (pyStrip (email0.getD "")) = some w →
        api_register hash s username0 email0 password0 now c
          = (s, ⟨409, false, some "Email already registered."⟩)) := by
  have hps : pyStrip "" = "" := rfl
  refine ⟨?_, ?_, ?_, ?_⟩
  · rintro (h | h | h) <;> simp [api_register, h, hps]
  · intro hlen
    by_cases hcond : (pyStrip (username0.getD "") = "" ∨ pyStrip (email0.getD "") = ""
        ∨ password0.getD "" = "")
    · refine ?_
      simp [api_register, hcond]
    · simp [api_register, hcond, hlen]
  · intro hu he hp0 hlen w hw
    simp [api_register, hu, he, hp0, hlen, hw]
  · intro hu he hp0 hlen hnu w hw
    simp [api_register, hu, he, hp0, hlen, hnu, hw]

/-- Witness for C3: on the demo state, an empty username gives 400, a
5-character password gives 400, the taken username `"alice"` gives the
username conflict even with a fresh email, and a fresh username with the
taken email `"a@x.com"` gives the email conflict. -/
theorem register_validation_and_conflicts_witness :
    api_register (fun p => p) demoState (some "") (some "c@x.com") (some "secret1") 7 true
      = (demoState, ⟨400, false, some "All fields are required."⟩) ∧
    ((api_register (fun p => p) demoState (some "carol") (some "c@x.com") (some "abc12") 7 true).2.status = 400 ∧
     (api_register (fun p => p) demoState (some "carol") (some "c@x.com") (some "abc12") 7 true).2.success = false ∧
     (api_register (fun p => p) demoState (some "carol") (some "c@x.com") (some "abc12") 7 true).1 = demoState) ∧
    api_register (fun p => p) demoState (some "alice") (some "c@x.com") (some "secret1") 7 true
      = (demoState, ⟨409, false, some "Username already taken."⟩) ∧
    api_register (fun p => p) demoState (some "carol") (some "a@x.com") (some "secret1") 7 true
      = (demoState, ⟨409, false, some "Email already registered."⟩) := by
  refine ⟨?_, ?_, ?_, ?_⟩
  · exact (register_validation_and_conflicts (fun p => p) demoState
      (some "") (some "c@x.com") (some "secret1") 7 true).1 (Or.inl rfl)
  · exact (register_validation_and_conflicts (fun p => p) demoState
      (some "carol") (some "c@x.com") (some "abc12") 7 true).2.1 (by decide)
  · exact (register_validation_and_conflicts (fun p => p) demoState
      (some "alice") (some "c@x.com") (some "secret1") 7 true).2.2.1
      (by decide) (by decide) (by decide) (by decide) user1 (by decide)
  · exact (register_validation_and_conflicts (fun p => p) demoState
      (some "carol") (some "a@x.com") (some "secret1") 7 true).2.2.2
      (by decide) (by decide) (by decide) (by decide) (by decide) user1 (by decide)

/-- Claim C2: the task list returned to an authenticated owner contains
exactly the tasks whose `user_id` is the owner's id, ordered
newest-created first; in particular, after creating task X and then task
Y (valid titles, Y created later), Y appears strictly before X in the
returned sequence. -/
theorem get_tasks_owner_scoped_and_newest_first (s : AppState) (uid : Nat)
    (tX cX tY cY : Option String) (t1 t2 : Nat)
    (hX : pyStrip (tX.getD "") ≠ "") (hY : pyStrip (tY.getD "") ≠ "")
    (h12 : t1 < t2) :
    (∀ t : Task, t ∈ (api_get_tasks s (some uid)).2 ↔ t ∈ s.tasks ∧ t.user_id = uid) ∧
    List.Pairwise taskLe (api_get_tasks s (some uid)).2 ∧
    (∃ i j,
      ∃ hi : i < ((api_get_tasks (afterCreateTwo s uid tX cX tY cY t1 t2) (some uid)).2).length,
      ∃ hj : j < ((api_get_tasks (afterCreateTwo s uid tX cX tY cY t1 t2) (some uid)).2).length,
      i < j ∧
      ((api_get_tasks (afterCreateTwo s uid tX cX tY cY t1 t2) (some uid)).2).get ⟨i, hi⟩
        = ⟨s.nextTaskId + 1, pyStrip (tY.getD ""), pyStrip (cY.getD ""), false, t2, uid⟩ ∧
      ((api_get_tasks (afterCreateTwo s uid tX cX tY cY t1 t2) (some uid)).2).get ⟨j, hj⟩
        = ⟨s.nextTaskId, pyStrip (tX.getD ""), pyStrip (cX.getD ""), false, t1, uid⟩) := by
  refine ⟨?_, ?_, ?_⟩
  · intro t
    show t ∈ listTasks s uid ↔ t ∈ s.tasks ∧ t.user_id = uid
    simp [listTasks, List.mem_insertionSort, List.mem_filter]
  · show List.Pairwise taskLe (listTasks s uid)
    exact List.sorted_insertionSort taskLe _
  · have h1 : (api_create_task s (some uid) tX cX t1 true).1
        = { s with tasks := s.tasks ++ [⟨s.nextTaskId, pyStrip (tX.getD ""), pyStrip (cX.getD ""), false, t1, uid⟩], nextTaskId := s.nextTaskId + 1 } := by
      simp [api_create_task, hX]
    have h2 : afterCreateTwo s uid tX cX tY cY t1 t2
        = { s with tasks := (s.tasks ++ [⟨s.nextTaskId, pyStrip (tX.getD ""), pyStrip (cX.getD ""), false, t1, uid⟩]) ++ [⟨s.nextTaskId + 1, pyStrip (tY.getD ""), pyStrip (cY.getD ""), false, t2, uid⟩], nextTaskId := s.nextTaskId + 1 + 1 } := by
      unfold afterCreateTwo
      rw [h1]
      simp [api_create_task, hY]
    set l := (api_get_tasks (afterCreateTwo s uid tX cX tY cY t1 t2) (some uid)).2 with hl
    have hltasks : l = List.insertionSort taskLe
        (((s.tasks ++ [(⟨s.nextTaskId, pyStrip (tX.getD ""), pyStrip (cX.getD ""), false, t1, uid⟩ : Task)]) ++ [(⟨s.nextTaskId + 1, pyStrip (tY.getD ""), pyStrip (cY.getD ""), false, t2, uid⟩ : Task)]).filter (fun t => t.user_id == uid)) := by
      rw [hl, h2]; rfl
    have hYmem : (⟨s.nextTaskId + 1, pyStrip (tY.getD ""), pyStrip (cY.getD ""), false, t2, uid⟩ : Task) ∈ l := by
      rw [hltasks, List.mem_insertionSort]
      simp [List.mem_filter]
    have hXmem : (⟨s.nextTaskId, pyStrip (tX.getD ""), pyStrip (cX.getD ""), false, t1, uid⟩ : Task) ∈ l := by
      rw [hltasks, List.mem_insertionSort]
      simp [List.mem_filter]
    have hsorted : List.Pairwise taskLe l := by
      rw [hltasks]
      exact List.sorted_insertionSort taskLe _
    obtain ⟨i, hi, hYi⟩ := List.mem_iff_getElem.mp hYmem
    obtain ⟨j, hj, hXj⟩ := List.mem_iff_getElem.mp hXmem
    rcases Nat.lt_trichotomy i j with hlt | heq | hgt
    · exact ⟨i, j, hi, hj, hlt, hYi, hXj⟩
    · exfalso
      subst heq
      have hYX := (hYi.symm.trans hXj)
      have := congrArg Task.created_at hYX
      simp at this
      omega
    · exfalso
      have hp := List.pairwise_iff_getElem.mp hsorted j i hj hi hgt
      rw [hXj, hYi] at hp
      have hle : t2 ≤ t1 := hp
      omega

/-- Witness for C2: on the demo state, alice's list is exactly her tasks
in newest-first order, and after she creates "X" at time 100 and "Y" at
time 200, "Y" is listed strictly before "X". -/
theorem get_tasks_owner_scoped_and_newest_first_witness :
    (∀ t : Task, t ∈ (api_get_tasks demoState (some 1)).2 ↔ t ∈ demoState.tasks ∧ t.user_id = 1) ∧
    List.Pairwise taskLe (api_get_tasks demoState (some 1)).2 ∧
    (∃ i j,
      ∃ hi : i < ((api_get_tasks (afterCreateTwo demoState 1 (some "X") none (some "Y") none 100 200) (some 1)).2).length,
      ∃ hj : j < ((api_get_tasks (afterCreateTwo demoState 1 (some "X") none (some "Y") none 100 200) (some 1)).2).length,
      i < j ∧
      ((api_get_tasks (afterCreateTwo demoState 1 (some "X") none (some "Y") none 100 200) (some 1)).2).get ⟨i, hi⟩
        = ⟨demoState.nextTaskId + 1, pyStrip (((some "Y") : Option String).getD ""), pyStrip ((none : Option String).getD ""), false, 200, 1⟩ ∧
      ((api_get_tasks (afterCreateTwo demoState 1 (some "X") none (some "Y") none 100 200) (some 1)).2).get ⟨j, hj⟩
        = ⟨demoState.nextTaskId, pyStrip (((some "X") : Option String).getD ""), pyStrip ((none : Option String).getD ""), false, 100, 1⟩) :=
  get_tasks_owner_scoped_and_newest_first demoState 1 (some "X") none (some "Y") none 100 200
    (by decide) (by decide) (by decide)

end TaskManager
